import Mathlib

/-!
Verification of the portfolio simulation engine in
`src/services/simulation.ts` of the quant-portfolio-simulator repository.

The engine is shallowly embedded: every method of `PortfolioSimulator` is
translated into a pure Lean function over an explicit state.  JavaScript
numbers are modelled by exact rationals (`ℚ`); `Math.floor` is `Int.floor`.
A price looked up for a ticker that has no bar on a day is modelled by
`Option ℚ` with `none` playing the role of JavaScript's `undefined`
(arithmetic on `undefined` yields `NaN`, and every comparison against `NaN`
is false, which is what the `none` branches below encode).  Calendar dates
are modelled by naturals (the source uses ISO `yyyy-mm-dd` strings, whose
lexicographic order is exactly chronological order, so any linearly ordered
label type is faithful).  `Date.now()` — used only to build trade ids — is
modelled by an explicit clock function `Nat → Nat` applied to a counter of
calls made so far, and the `console.log` emitted by `liquidateAll` is
recorded in an explicit `liqEvents` list so that forced liquidations are
observable in the model.  `Math.sqrt` (used only by the metric
calculations) is an explicit function parameter `msqrt`.
-/

namespace PortfolioSim

abbrev Ticker := String

abbrev Date := Nat

/-- One daily bar of the external price series (`HistoricalPrice` in
`src/types/index.ts`).  The engine reads only the `date` and `close`
fields, so the unread open/high/low/volume fields are omitted. -/
structure Bar where
  date : Date
  close : ℚ
deriving DecidableEq, Repr

/-- `RiskControls` from `src/types/index.ts`: percentages. -/
structure RiskControls where
  maxDrawdown : ℚ
  volatilityCap : ℚ
  stopLoss : ℚ
deriving DecidableEq, Repr

/-- `SimulationConfig` from `src/types/index.ts`.  `strategy` is a plain
string, exactly as in the source (the `switch` in `generateSignals`
matches it against the three known names and otherwise emits nothing). -/
structure SimulationConfig where
  tickers : List Ticker
  startDate : Date
  endDate : Date
  initialCapital : ℚ
  strategy : String
  riskControls : RiskControls
deriving DecidableEq, Repr

inductive TradeAction where
  | BUY
  | SELL
deriving DecidableEq, Repr

/-- The source builds trade ids as the string
`` `${date}-${signal.ticker}-${Date.now()}` ``; the three components are
kept separate here.  `now` is the value returned by the modelled
`Date.now()` call. -/
structure TradeId where
  date : Date
  ticker : Ticker
  now : Nat
deriving DecidableEq, Repr

/-- `Trade` from `src/types/index.ts`. -/
structure Trade where
  id : TradeId
  date : Date
  ticker : Ticker
  action : TradeAction
  quantity : ℤ
  price : ℚ
  value : ℚ
  reason : String
deriving DecidableEq, Repr

/-- A strategy signal, as produced by `generateSignals`. -/
structure Signal where
  ticker : Ticker
  action : TradeAction
  weight : Option ℚ
  reason : String
deriving DecidableEq, Repr

/-- `Portfolio` from `src/types/index.ts`.  `assets` is the JS object
`ticker -> quantity`, modelled as an association list with unique keys
(JS object insertion semantics: update in place, append new keys,
`delete` removes the key). -/
structure Portfolio where
  assets : List (Ticker × ℤ)
  cash : ℚ
  totalValue : ℚ
  dailyReturns : List ℚ
  dates : List Date
  values : List ℚ
deriving DecidableEq, Repr

/-- The whole mutable state of a `PortfolioSimulator` run: the portfolio,
the trade log, the number of `Date.now()` calls made so far, and the list
of `console.log` liquidation events emitted by `liquidateAll`. -/
structure SimState where
  portfolio : Portfolio
  trades : List Trade
  tick : Nat
  liqEvents : List (Date × String)
deriving DecidableEq, Repr

/-- `PerformanceMetrics` from `src/types/index.ts` (`sharpe` is the field
called `sharpeRatio` in the source). -/
structure PerformanceMetrics where
  totalReturn : ℚ
  sharpe : ℚ
  maxDrawdown : ℚ
  winRate : ℚ
  volatility : ℚ
  alpha : ℚ
  beta : ℚ
deriving DecidableEq, Repr

/-- `ChartDataPoint` from `src/types/index.ts`. -/
structure ChartDataPoint where
  date : Date
  value : ℚ
  drawdown : ℚ
  benchmark : ℚ
deriving DecidableEq, Repr

/-- `SimulationResult` from `src/types/index.ts`. -/
structure SimulationResult where
  portfolio : Portfolio
  trades : List Trade
  metrics : PerformanceMetrics
  chartData : List ChartDataPoint
deriving DecidableEq, Repr

/-- `this.portfolio.assets[ticker] || 0`. -/
def lookupQty (assets : List (Ticker × ℤ)) (t : Ticker) : ℤ :=
  ((assets.find? (fun p => p.1 = t)).map (fun p => p.2)).getD 0

/-- `ticker in this.portfolio.assets` (JS key-presence test). -/
def hasKey (assets : List (Ticker × ℤ)) (t : Ticker) : Bool :=
  (assets.find? (fun p => p.1 = t)).isSome

/-- `this.portfolio.assets[ticker] = q`: JS object assignment updates the
existing key in place or appends a new one. -/
def setQty : List (Ticker × ℤ) → Ticker → ℤ → List (Ticker × ℤ)
  | [], t, q => [(t, q)]
  | p :: r, t, q => if p.1 = t then (t, q) :: r else p :: setQty r t q

/-- `delete this.portfolio.assets[ticker]`. -/
def removeKey (assets : List (Ticker × ℤ)) (t : Ticker) : List (Ticker × ℤ) :=
  assets.eraseP (fun p => decide (p.1 = t))

/-- `prices[ticker]` where `prices` is the per-day close-price map built
by `simulateDay`; `none` models `undefined`. -/
def lookupPrice (prices : List (Ticker × ℚ)) (t : Ticker) : Option ℚ :=
  (prices.find? (fun p => p.1 = t)).map (fun p => p.2)

/-- `this.historicalData[ticker] || []`. -/
def lookupBars (hist : List (Ticker × List Bar)) (t : Ticker) : List Bar :=
  ((hist.find? (fun p => p.1 = t)).map (fun p => p.2)).getD []

/-- The state built by the `PortfolioSimulator` constructor
(`simulation.ts:23-33`): empty positions, `cash = totalValue =
initialCapital`, empty histories, and the seed valuation entry
`values = [initialCapital]`. -/
def initState (config : SimulationConfig) : SimState :=
  { portfolio :=
      { assets := []
        cash := config.initialCapital
        totalValue := config.initialCapital
        dailyReturns := []
        dates := []
        values := [config.initialCapital] }
    trades := []
    tick := 0
    liqEvents := [] }

/-- `getTradingDates` (`simulation.ts:81-87`): the sorted, deduplicated
union of all dates of all loaded series.  `Object.values` iterates in
insertion order, i.e. in the order the tickers were loaded.  The source
deduplicates with `new Set` (keeping first occurrences) and then sorts;
since sorting a duplicate-free list is determined by its underlying set,
`dedup` followed by an insertion sort is faithful. -/
def getTradingDates (hist : List (Ticker × List Bar)) : List Date :=
  ((((hist.map (fun p => p.2)).flatten).map (fun b => b.date)).dedup).insertionSort (· ≤ ·)

/-- The per-day price map built at the top of `simulateDay`
(`simulation.ts:91-97`): for each configured ticker, today's close if the
ticker has a bar dated today. -/
def dayPrices (config : SimulationConfig) (hist : List (Ticker × List Bar)) (date : Date) :
    List (Ticker × ℚ) :=
  config.tickers.filterMap (fun t =>
    ((lookupBars hist t).find? (fun d => d.date = date)).map (fun d => (t, d.close)))

/-- `getRecentPrices` (`simulation.ts:227-240`): the closes of the last
`days` bars of the ticker's series ending at (and including) the bar
dated `currentDate`; `[]` if the date is absent (JS `findIndex = -1`) or
fewer than `days` bars precede it.  `slice(Math.max(0, i - days + 1),
i + 1)` is `take (i + 1)` then `drop (i + 1 - days)` (truncated natural
subtraction supplies the `max 0`). -/
def getRecentPrices (hist : List (Ticker × List Bar)) (ticker : Ticker) (currentDate : Date)
    (days : Nat) : List ℚ :=
  let data := lookupBars hist ticker
  match data.findIdx? (fun d => d.date = currentDate) with
  | none => []
  | some currentIndex =>
    if currentIndex < days - 1 then []
    else ((data.take (currentIndex + 1)).drop (currentIndex + 1 - days)).map (fun d => d.close)

/-- `Number.prototype.toFixed(1)`: one-decimal fixed-point rendering
(modelled with exact half-up rounding of the rational; the source applies
it to binary floating-point values, where representation error can shift
a value that is exactly on a rounding boundary). -/
def toFixed1 (x : ℚ) : String :=
  let n : ℤ := round (x * 10)
  let sign := if n < 0 then "-" else ""
  let a := n.natAbs
  sign ++ toString (a / 10) ++ "." ++ toString (a % 10)

/-- The reason string of a momentum BUY signal:
`Strong momentum:` followed by the momentum percentage to one decimal. -/
def momentumBuyReason (momentum : ℚ) : String :=
  "Strong momentum: " ++ toFixed1 (momentum * 100) ++ "%"

/-- The reason string of a momentum SELL signal. -/
def momentumSellReason (momentum : ℚ) : String :=
  "Negative momentum: " ++ toFixed1 (momentum * 100) ++ "%"

/-- The reason string of a mean-reversion BUY signal. -/
def oversoldReason (deviation : ℚ) : String :=
  "Oversold: " ++ toFixed1 (deviation * 100) ++ "% below average"

/-- The reason string of a mean-reversion SELL signal. -/
def overboughtReason (deviation : ℚ) : String :=
  "Overbought: " ++ toFixed1 (deviation * 100) ++ "% above average"

/-- `generateSignals` (`simulation.ts:111-225`).  The source switches on
the strategy string and pushes signals per configured ticker; pushing
inside a `for` loop over `config.tickers` with at most one signal per
ticker is a `filterMap` (`map` on day 0 of equal-weight, where every
ticker gets a signal).  Missing prices: in the source a missing
`prices[ticker]` makes `currentValue`/`deviation` `NaN`, every comparison
against `NaN` is false and no signal is pushed; the `none` branches
encode exactly that. -/
def generateSignals (config : SimulationConfig) (hist : List (Ticker × List Bar))
    (portfolio : Portfolio) (date : Date) (dayIndex : Nat) (prices : List (Ticker × ℚ)) :
    List Signal :=
  if config.strategy = "equal-weight" then
    if dayIndex = 0 then
      -- initial equal weight allocation
      let weightPerAsset : ℚ := 1 / (config.tickers.length : ℚ)
      config.tickers.map (fun ticker =>
        { ticker := ticker, action := .BUY, weight := some weightPerAsset
          reason := "Initial equal weight allocation" })
    else if dayIndex % 20 = 0 then
      -- rebalance every 20 days
      let targetWeight : ℚ := 1 / (config.tickers.length : ℚ)
      config.tickers.filterMap (fun ticker =>
        match lookupPrice prices ticker with
        | none => none
        | some price =>
          let currentValue : ℚ := (lookupQty portfolio.assets ticker : ℚ) * price
          let currentWeight := currentValue / portfolio.totalValue
          if |currentWeight - targetWeight| > 0.05 then
            some { ticker := ticker
                   action := if currentWeight > targetWeight then .SELL else .BUY
                   weight := some targetWeight
                   reason := "Rebalancing to equal weights" }
          else none)
    else []
  else if config.strategy = "momentum" then
    if 20 ≤ dayIndex then
      config.tickers.filterMap (fun ticker =>
        let recent := getRecentPrices hist ticker date 20
        if 20 ≤ recent.length then
          let momentum := (recent.getLastD 0 - recent.headD 0) / recent.headD 0
          if momentum > 0.05 ∧ hasKey portfolio.assets ticker = false then
            some { ticker := ticker, action := .BUY, weight := some 0.2
                   reason := momentumBuyReason momentum }
          else if momentum < -0.05 ∧ hasKey portfolio.assets ticker = true then
            some { ticker := ticker, action := .SELL, weight := none
                   reason := momentumSellReason momentum }
          else none
        else none)
    else []
  else if config.strategy = "mean-reversion" then
    if 20 ≤ dayIndex then
      config.tickers.filterMap (fun ticker =>
        let recent := getRecentPrices hist ticker date 20
        if 20 ≤ recent.length then
          match lookupPrice prices ticker with
          | none => none
          | some currentPrice =>
            let average := (recent.foldl (· + ·) 0) / (recent.length : ℚ)
            let deviation := (currentPrice - average) / average
            if deviation < -0.1 ∧ hasKey portfolio.assets ticker = false then
              some { ticker := ticker, action := .BUY, weight := some 0.2
                     reason := oversoldReason deviation }
            else if deviation > 0.1 ∧ hasKey portfolio.assets ticker = true then
              some { ticker := ticker, action := .SELL, weight := none
                     reason := overboughtReason deviation }
            else none
        else none)
    else []
  else []

/-- `executeTrade` (`simulation.ts:242-298`).  `price?` is
`prices[signal.ticker]`, which can be `undefined` (`none`).  For a BUY
with an undefined price, `quantity = Math.floor(x / undefined) = NaN` and
`NaN > 0` is false, so the signal is dropped; the `none` branch returns
the state unchanged for exactly that reason.  For a SELL with an
undefined price the source would push a `NaN`-valued trade, but no code
path of the engine produces such a call (every SELL signal is generated
only for a ticker that is priced on the day), so that branch is also a
no-op here.  `signal.weight ? a : b` is a JS truthiness test, which takes
the fallback branch both for a missing weight and for a weight of `0`.
On success the trade id records the date, ticker and the `Date.now()`
value, modelled as `clock` applied to the number of calls made so far. -/
def executeTrade (clock : Nat → Nat) (st : SimState) (signal : Signal) (date : Date)
    (price? : Option ℚ) : SimState :=
  match signal.action with
  | .BUY =>
    match price? with
    | none => st
    | some price =>
      let targetValue : ℚ :=
        match signal.weight with
        | some w => if w = 0 then min (st.portfolio.cash * 0.2) 10000
                    else st.portfolio.totalValue * w
        | none => min (st.portfolio.cash * 0.2) 10000
      let quantity : ℤ := ⌊targetValue / price⌋
      let value : ℚ := (quantity : ℚ) * price
      if 0 < quantity ∧ value ≤ st.portfolio.cash then
        { st with
          portfolio :=
            { st.portfolio with
              assets := setQty st.portfolio.assets signal.ticker
                  (lookupQty st.portfolio.assets signal.ticker + quantity)
              cash := st.portfolio.cash - value }
          trades := st.trades ++
            [{ id := { date := date, ticker := signal.ticker, now := clock st.tick }
               date := date, ticker := signal.ticker, action := .BUY
               quantity := quantity, price := price, value := value
               reason := signal.reason }]
          tick := st.tick + 1 }
      else st
  | .SELL =>
    match price? with
    | none => st
    | some price =>
      let quantity : ℤ := lookupQty st.portfolio.assets signal.ticker
      let value : ℚ := (quantity : ℚ) * price
      if 0 < quantity then
        { st with
          portfolio :=
            { st.portfolio with
              assets := removeKey st.portfolio.assets signal.ticker
              cash := st.portfolio.cash + value }
          trades := st.trades ++
            [{ id := { date := date, ticker := signal.ticker, now := clock st.tick }
               date := date, ticker := signal.ticker, action := .SELL
               quantity := quantity, price := price, value := value
               reason := signal.reason }]
          tick := st.tick + 1 }
      else st

/-- `updatePortfolioValue` (`simulation.ts:300-317`): mark-to-market.
`totalValue` starts from cash and adds `quantity * (prices[ticker] || 0)`
for every held entry; the new value and date are appended and the daily
return is computed against the previous `totalValue` field. -/
def updatePortfolioValue (st : SimState) (date : Date) (prices : List (Ticker × ℚ)) :
    SimState :=
  let totalValue : ℚ := st.portfolio.assets.foldl
    (fun acc p => acc + (p.2 : ℚ) * ((lookupPrice prices p.1).getD 0)) st.portfolio.cash
  let previousValue := st.portfolio.totalValue
  let dailyReturn := (totalValue - previousValue) / previousValue
  { st with
    portfolio :=
      { st.portfolio with
        totalValue := totalValue
        values := st.portfolio.values ++ [totalValue]
        dates := st.portfolio.dates ++ [date]
        dailyReturns := st.portfolio.dailyReturns ++ [dailyReturn] } }

/-- `liquidateAll` (`simulation.ts:347-351`): logs the event, clears all
positions and assigns `totalValue = cash` (a direct state reset; cash is
not modified and no trade records are emitted). -/
def liquidateAll (st : SimState) (date : Date) (reason : String) : SimState :=
  { st with
    portfolio := { st.portfolio with assets := [], totalValue := st.portfolio.cash }
    liqEvents := st.liqEvents ++ [(date, reason)] }

/-- `calculateCurrentDrawdown` (`simulation.ts:337-345`): 0 with fewer
than two valuations, else decline of the last valuation from the peak of
all valuations (`Math.max(...values)`). -/
def calculateCurrentDrawdown (st : SimState) : ℚ :=
  let values := st.portfolio.values
  if values.length < 2 then 0
  else
    let peak := (values.max?).getD 0
    let current := values.getLastD 0
    (peak - current) / peak

/-- `applyRiskControls` (`simulation.ts:319-335`): after valuation,
liquidate if the current drawdown strictly exceeds `maxDrawdown / 100`;
then, on the (possibly already liquidated) state, liquidate if the loss
from `values[0]` strictly exceeds `stopLoss / 100`. -/
def applyRiskControls (config : SimulationConfig) (st : SimState) (date : Date) : SimState :=
  let currentDrawdown := calculateCurrentDrawdown st
  let st1 :=
    if currentDrawdown > config.riskControls.maxDrawdown / 100 then
      liquidateAll st date "Max drawdown exceeded"
    else st
  let initialValue := st1.portfolio.values.headD 0
  let currentLoss := (initialValue - st1.portfolio.totalValue) / initialValue
  if currentLoss > config.riskControls.stopLoss / 100 then
    liquidateAll st1 date "Stop loss triggered"
  else st1

/-- `simulateDay` (`simulation.ts:89-109`): build today's price map,
generate the day's signals from the pre-trade portfolio, execute them in
emission order, then mark to market. -/
def simulateDay (config : SimulationConfig) (hist : List (Ticker × List Bar))
    (clock : Nat → Nat) (st : SimState) (date : Date) (dayIndex : Nat) : SimState :=
  let prices := dayPrices config hist date
  let signals := generateSignals config hist st.portfolio date dayIndex prices
  let st' := signals.foldl
    (fun s signal => executeTrade clock s signal date (lookupPrice prices signal.ticker)) st
  updatePortfolioValue st' date prices

/-- One iteration of the daily loop of `simulate` (`simulation.ts:46-52`):
`simulateDay` followed by `applyRiskControls`. -/
def dayStep (config : SimulationConfig) (hist : List (Ticker × List Bar))
    (clock : Nat → Nat) (st : SimState) (p : Nat × Date) : SimState :=
  applyRiskControls config (simulateDay config hist clock st p.2 p.1) p.2

/-- The daily loop of `simulate` run over the whole trading calendar. -/
def simulateCore (config : SimulationConfig) (hist : List (Ticker × List Bar))
    (clock : Nat → Nat) : SimState :=
  ((getTradingDates hist).enum).foldl (dayStep config hist clock) (initState config)

/-- `calculateVolatility` (`simulation.ts:375-384`): annualized population
standard deviation of the daily returns.  `msqrt` models `Math.sqrt`. -/
def calculateVolatility (msqrt : ℚ → ℚ) (returns : List ℚ) : ℚ :=
  if returns.length = 0 then 0
  else
    let mean := (returns.foldl (· + ·) 0) / (returns.length : ℚ)
    let variance := (returns.foldl (fun acc ret => acc + (ret - mean) ^ 2) 0) /
      (returns.length : ℚ)
    msqrt variance * msqrt 252

/-- `calculateSharpeRatio` in the source (`simulation.ts:386-394`); the
name is shortened here. -/
def calculateSharpe (msqrt : ℚ → ℚ) (returns : List ℚ) : ℚ :=
  if returns.length = 0 then 0
  else
    let meanReturn := (returns.foldl (· + ·) 0) / (returns.length : ℚ)
    let volatility := calculateVolatility msqrt returns / msqrt 252
    let riskFreeRate : ℚ := 0.02 / 252
    if volatility > 0 then (meanReturn - riskFreeRate) / volatility else 0

/-- `calculateMaxDrawdown` (`simulation.ts:396-411`): running peak /
maximal decline over the whole valuation history. -/
def calculateMaxDrawdown (values : List ℚ) : ℚ :=
  (values.foldl
    (fun acc value =>
      let peak := if value > acc.2 then value else acc.2
      let drawdown := (peak - value) / peak
      (max acc.1 drawdown, peak))
    (0, values.getD 0 0)).1

/-- `calculateWinRate` (`simulation.ts:413-426`): fraction of SELL trades
whose price exceeds the price of the first BUY trade for the same ticker
with a strictly earlier date.  `buyTrade && trade.price > buyTrade.price`
is `(find? ...).map (...) |>.getD false`. -/
def calculateWinRate (trades : List Trade) : ℚ :=
  if trades.length = 0 then 0
  else
    let sellTrades := trades.filter (fun t => t.action = .SELL)
    let winningTrades := sellTrades.filter (fun trade =>
      ((trades.find? (fun t =>
          t.ticker = trade.ticker ∧ t.action = .BUY ∧ t.date < trade.date)).map
        (fun buyTrade => decide (trade.price > buyTrade.price))).getD false)
    if 0 < sellTrades.length then (winningTrades.length : ℚ) / (sellTrades.length : ℚ)
    else 0

/-- `calculateMetrics` (`simulation.ts:353-373`).  `alpha` and `beta` are
the source's fixed placeholder constants. -/
def calculateMetrics (msqrt : ℚ → ℚ) (st : SimState) : PerformanceMetrics :=
  let returns := st.portfolio.dailyReturns
  let initialValue := st.portfolio.values.getD 0 0
  let finalValue := st.portfolio.totalValue
  { totalReturn := (finalValue - initialValue) / initialValue
    sharpe := calculateSharpe msqrt returns
    maxDrawdown := calculateMaxDrawdown st.portfolio.values
    winRate := calculateWinRate st.trades
    volatility := calculateVolatility msqrt returns
    alpha := 0.02
    beta := 1.1 }

/-- `generateChartData` (`simulation.ts:428-441`). -/
def generateChartData (config : SimulationConfig) (st : SimState) : List ChartDataPoint :=
  (st.portfolio.dates.enum).map (fun p =>
    let value := st.portfolio.values.getD (p.1 + 1) 0
    let peak := ((st.portfolio.values.take (p.1 + 2)).max?).getD 0
    let drawdown := if value < peak then (peak - value) / peak else 0
    { date := p.2
      value := value
      drawdown := drawdown * 100
      benchmark := config.initialCapital * (1 + 0.0003 * (p.1 : ℚ)) })

/-- `loadHistoricalData` (`simulation.ts:68-79`): fetch every configured
ticker's series; a failure of any single fetch fails the whole load
(`Promise.all` rejection). -/
def loadHistoricalData (fetch : Ticker → Except String (List Bar)) :
    List Ticker → Except String (List (Ticker × List Bar))
  | [] => .ok []
  | t :: ts =>
    match fetch t with
    | .error e => .error e
    | .ok bars =>
      match loadHistoricalData fetch ts with
      | .error e => .error e
      | .ok rest => .ok ((t, bars) :: rest)

/-- `simulate` (`simulation.ts:38-66`): load the data (the only failure
path — the constructor and the loop perform no validation of the
configuration), run the daily loop over the trading calendar, then
compute metrics and chart data. -/
def simulate (config : SimulationConfig) (fetch : Ticker → Except String (List Bar))
    (clock : Nat → Nat) (msqrt : ℚ → ℚ) : Except String SimulationResult :=
  match loadHistoricalData fetch config.tickers with
  | .error e => .error e
  | .ok hist =>
    let final := simulateCore config hist clock
    .ok { portfolio := final.portfolio
          trades := final.trades
          metrics := calculateMetrics msqrt final
          chartData := generateChartData config final }

/-! ## General lemmas about the engine -/

/-- The sum `Σ quantity_i × (price_i or 0)` over the held positions, the
specification's mark-to-market sum. -/
def positionsValue (assets : List (Ticker × ℤ)) (prices : List (Ticker × ℚ)) : ℚ :=
  (assets.map (fun p => (p.2 : ℚ) * ((lookupPrice prices p.1).getD 0))).sum

theorem foldl_add_positions (assets : List (Ticker × ℤ)) (prices : List (Ticker × ℚ))
    (c : ℚ) :
    assets.foldl (fun acc p => acc + (p.2 : ℚ) * ((lookupPrice prices p.1).getD 0)) c =
      c + positionsValue assets prices := by
  induction assets generalizing c with
  | nil => simp [positionsValue]
  | cons p r ih => simp [positionsValue, ih, add_assoc]

theorem updatePortfolioValue_totalValue (st : SimState) (date : Date)
    (prices : List (Ticker × ℚ)) :
    (updatePortfolioValue st date prices).portfolio.totalValue =
      st.portfolio.cash + positionsValue st.portfolio.assets prices := by
  simp [updatePortfolioValue, foldl_add_positions]

theorem updatePortfolioValue_cash (st : SimState) (date : Date)
    (prices : List (Ticker × ℚ)) :
    (updatePortfolioValue st date prices).portfolio.cash = st.portfolio.cash := rfl

theorem updatePortfolioValue_assets (st : SimState) (date : Date)
    (prices : List (Ticker × ℚ)) :
    (updatePortfolioValue st date prices).portfolio.assets = st.portfolio.assets := rfl

theorem append_singleton_ne {α : Type _} (l : List α) (a : α) : l ++ [a] ≠ l := by
  intro h
  have hlen := congrArg List.length h
  simp at hlen

/-- Case analysis of `applyRiskControls`: either no control fires and the
state is unchanged, or a liquidation happened and the final state has the
liquidated shape. -/
theorem applyRiskControls_cases (config : SimulationConfig) (st : SimState) (date : Date) :
    (applyRiskControls config st date = st ∧
      ¬(calculateCurrentDrawdown st > config.riskControls.maxDrawdown / 100) ∧
      ¬((st.portfolio.values.headD 0 - st.portfolio.totalValue) /
          st.portfolio.values.headD 0 > config.riskControls.stopLoss / 100)) ∨
    ((calculateCurrentDrawdown st > config.riskControls.maxDrawdown / 100 ∨
        (st.portfolio.values.headD 0 - st.portfolio.totalValue) /
          st.portfolio.values.headD 0 > config.riskControls.stopLoss / 100) ∧
      (applyRiskControls config st date).portfolio.assets = [] ∧
      (applyRiskControls config st date).portfolio.cash = st.portfolio.cash ∧
      (applyRiskControls config st date).portfolio.totalValue = st.portfolio.cash ∧
      (applyRiskControls config st date).portfolio.values = st.portfolio.values ∧
      (applyRiskControls config st date).portfolio.dailyReturns =
        st.portfolio.dailyReturns ∧
      (applyRiskControls config st date).portfolio.dates = st.portfolio.dates ∧
      (applyRiskControls config st date).trades = st.trades ∧
      (applyRiskControls config st date).tick = st.tick ∧
      st.liqEvents.length < (applyRiskControls config st date).liqEvents.length) := by
  simp only [applyRiskControls]
  by_cases h1 : calculateCurrentDrawdown st > config.riskControls.maxDrawdown / 100
  · simp only [if_pos h1]
    by_cases h2 :
        ((liquidateAll st date "Max drawdown exceeded").portfolio.values.headD 0 -
            (liquidateAll st date "Max drawdown exceeded").portfolio.totalValue) /
          (liquidateAll st date "Max drawdown exceeded").portfolio.values.headD 0 >
          config.riskControls.stopLoss / 100
    · simp only [if_pos h2]
      right
      refine ⟨Or.inl h1, ?_⟩
      simp [liquidateAll]
    · simp only [if_neg h2]
      right
      refine ⟨Or.inl h1, ?_⟩
      simp [liquidateAll]
  · simp only [if_neg h1]
    by_cases h2 :
        (st.portfolio.values.headD 0 - st.portfolio.totalValue) /
          st.portfolio.values.headD 0 > config.riskControls.stopLoss / 100
    · simp only [if_pos h2]
      right
      refine ⟨Or.inr h2, ?_⟩
      simp [liquidateAll]
    · simp only [if_neg h2]
      refine Or.inl ⟨?_, h1, h2⟩
      simp

/-- If no liquidation event was appended, `applyRiskControls` was the
identity. -/
theorem applyRiskControls_of_liqEvents_eq (config : SimulationConfig) (st : SimState)
    (date : Date) (h : (applyRiskControls config st date).liqEvents = st.liqEvents) :
    applyRiskControls config st date = st := by
  rcases applyRiskControls_cases config st date with ⟨heq, -, -⟩ | ⟨-, -, -, -, -, -, -, -, -, hlt⟩
  · exact heq
  · rw [h] at hlt
    exact absurd hlt (lt_irrefl _)

/-! ## Concrete instances used by counterexamples and witnesses -/

/-- A state holding six shares of `A` worth 600 on top of 100 cash. -/
def exPortfolio : Portfolio :=
  { assets := [("A", 6)], cash := 100, totalValue := 700
    dailyReturns := [-3/10], dates := [1], values := [1000, 700] }

def exState : SimState :=
  { portfolio := exPortfolio, trades := [], tick := 0, liqEvents := [] }

/-- A configuration whose 20% max-drawdown control fires on `exState`
(the current drawdown is 30%) while the 95% stop-loss does not. -/
def exConfig : SimulationConfig :=
  { tickers := ["A"], startDate := 1, endDate := 2, initialCapital := 1000
    strategy := "equal-weight"
    riskControls := { maxDrawdown := 20, volatilityCap := 25, stopLoss := 95 } }

/-! ## C1 -/

/-- Claim C1 counterexample.  On `exState` (positions worth 600, cash 100,
total value 700) the max-drawdown control forces a liquidation, after
which cash is still 100 — not the pre-liquidation total value 700 as the
claim asserts: `liquidateAll` assigns `totalValue = cash`, not
`cash = totalValue`, so the position value is forfeited rather than
converted into cash. -/
theorem C1_counterexample :
    (applyRiskControls exConfig exState 2).liqEvents = [(2, "Max drawdown exceeded")] ∧
    (applyRiskControls exConfig exState 2).portfolio.assets = [] ∧
    (applyRiskControls exConfig exState 2).portfolio.cash = 100 ∧
    exState.portfolio.totalValue = 700 ∧
    (applyRiskControls exConfig exState 2).portfolio.cash ≠
      exState.portfolio.totalValue := by
  norm_num [applyRiskControls, calculateCurrentDrawdown, liquidateAll, exConfig, exState,
    exPortfolio, List.max?]

/-- Claim C1, amended: every forced liquidation (by the max-drawdown or
stop-loss control) clears all positions and sets `totalValue` equal to
cash, leaving cash itself unchanged; afterwards `cash = totalValue`
holds, but the value held in positions at liquidation is forfeited rather
than converted into cash. -/
theorem C1_theorem (config : SimulationConfig) (st : SimState) (date : Date)
    (h : applyRiskControls config st date ≠ st) :
    (applyRiskControls config st date).portfolio.assets = [] ∧
    (applyRiskControls config st date).portfolio.cash = st.portfolio.cash ∧
    (applyRiskControls config st date).portfolio.totalValue = st.portfolio.cash ∧
    (applyRiskControls config st date).portfolio.cash =
      (applyRiskControls config st date).portfolio.totalValue := by
  rcases applyRiskControls_cases config st date with ⟨heq, -, -⟩ |
    ⟨-, ha, hc, ht, -⟩
  · exact absurd heq h
  · exact ⟨ha, hc, ht, by rw [hc, ht]⟩

/-- Witness for C1: the amended statement evaluated on the concrete
liquidation of `exState`. -/
theorem C1_witness :
    (applyRiskControls exConfig exState 2).portfolio.assets = [] ∧
    (applyRiskControls exConfig exState 2).portfolio.cash = 100 ∧
    (applyRiskControls exConfig exState 2).portfolio.totalValue = 100 := by
  have hliq : (applyRiskControls exConfig exState 2).liqEvents =
      [(2, "Max drawdown exceeded")] := by
    norm_num [applyRiskControls, calculateCurrentDrawdown, liquidateAll, exConfig, exState,
      exPortfolio, List.max?]
  have hne : applyRiskControls exConfig exState 2 ≠ exState := by
    intro heq
    have := congrArg SimState.liqEvents heq
    rw [hliq] at this
    simp [exState] at this
  have h := C1_theorem exConfig exState 2 hne
  refine ⟨h.1, ?_, ?_⟩
  · rw [h.2.1]; norm_num [exState, exPortfolio]
  · rw [h.2.2.1]; norm_num [exState, exPortfolio]

/-! ## C2 -/

/-- A configuration violating every validity constraint the specification
names: empty ticker set, `startDate` not before `endDate`. -/
def cfg2cex : SimulationConfig :=
  { tickers := [], startDate := 5, endDate := 3, initialCapital := 1000
    strategy := "momentum"
    riskControls := { maxDrawdown := 20, volatilityCap := 25, stopLoss := 15 } }

/-- Claim C2 counterexample.  `cfg2cex` has an empty ticker set and
`startDate > endDate`, yet `simulate` succeeds: neither the constructor
nor `simulate` validates the configuration, so no "fail fast with an
error" happens (and the constructor has already created the seed
ledger). -/
theorem C2_counterexample :
    cfg2cex.tickers = [] ∧ cfg2cex.endDate < cfg2cex.startDate ∧
    (simulate cfg2cex (fun t => .error ("Unknown ticker: " ++ t)) (fun k => k)
      (fun q => q)).isOk = true := by
  refine ⟨rfl, by norm_num [cfg2cex], ?_⟩
  norm_num [simulate, loadHistoricalData, simulateCore, getTradingDates, initState, cfg2cex,
    calculateMetrics, calculateVolatility, calculateSharpe, calculateMaxDrawdown,
    calculateWinRate, generateChartData, List.insertionSort, List.dedup, Except.isOk,
    Except.toBool]

/-- Claim C2, amended: the engine performs no configuration validation at
all.  In particular a run with an empty ticker set does not fail: it
returns successfully with the seed-only ledger, an empty trade log and
all-zero metrics (the only failure path of `simulate` is a failing price
fetch, which an empty ticker set never exercises). -/
theorem C2_theorem (config : SimulationConfig) (fetch : Ticker → Except String (List Bar))
    (clock : Nat → Nat) (msqrt : ℚ → ℚ) (h : config.tickers = []) :
    simulate config fetch clock msqrt =
      .ok { portfolio := (initState config).portfolio
            trades := []
            metrics := { totalReturn := 0, sharpe := 0, maxDrawdown := 0, winRate := 0
                         volatility := 0, alpha := 0.02, beta := 1.1 }
            chartData := [] } := by
  simp only [simulate, h, loadHistoricalData]
  simp [simulateCore, getTradingDates, initState, calculateMetrics, calculateVolatility,
    calculateSharpe, calculateMaxDrawdown, calculateWinRate, generateChartData,
    List.insertionSort, List.dedup, sub_self, zero_div, max_self, lt_irrefl]

/-- Witness for C2: the amended statement evaluated at `cfg2cex`. -/
theorem C2_witness :
    simulate cfg2cex (fun t => .error ("Unknown ticker: " ++ t)) (fun k => k) (fun q => q) =
      .ok { portfolio := { assets := [], cash := 1000, totalValue := 1000
                           dailyReturns := [], dates := [], values := [1000] }
            trades := []
            metrics := { totalReturn := 0, sharpe := 0, maxDrawdown := 0, winRate := 0
                         volatility := 0, alpha := 0.02, beta := 1.1 }
            chartData := [] } := by
  rw [C2_theorem cfg2cex (fun t => .error ("Unknown ticker: " ++ t)) (fun k => k)
    (fun q => q) rfl]
  norm_num [initState, cfg2cex]

/-! ## C5 -/

/-- Claim C5, confirmed: after a day's mark-to-market
(`updatePortfolioValue`) the total value equals cash plus the
mark-to-market sum of the held positions (a missing price contributing
0), and the identity still holds after the risk check, including the case
of a forced liquidation, after which positions are empty and
`cash = totalValue`. -/
theorem C5_theorem (config : SimulationConfig) (st : SimState) (date : Date)
    (prices : List (Ticker × ℚ)) :
    (updatePortfolioValue st date prices).portfolio.totalValue =
      (updatePortfolioValue st date prices).portfolio.cash +
        positionsValue (updatePortfolioValue st date prices).portfolio.assets prices ∧
    (applyRiskControls config (updatePortfolioValue st date prices) date).portfolio.totalValue
      = (applyRiskControls config (updatePortfolioValue st date prices) date).portfolio.cash +
        positionsValue
          (applyRiskControls config (updatePortfolioValue st date prices) date).portfolio.assets
          prices ∧
    ((applyRiskControls config (updatePortfolioValue st date prices) date).liqEvents ≠
        (updatePortfolioValue st date prices).liqEvents →
      (applyRiskControls config (updatePortfolioValue st date prices) date).portfolio.assets
          = [] ∧
      (applyRiskControls config (updatePortfolioValue st date prices) date).portfolio.cash =
        (applyRiskControls config (updatePortfolioValue st date prices) date).portfolio.totalValue) := by
  have h1 : (updatePortfolioValue st date prices).portfolio.totalValue =
      (updatePortfolioValue st date prices).portfolio.cash +
        positionsValue (updatePortfolioValue st date prices).portfolio.assets prices := by
    rw [updatePortfolioValue_totalValue, updatePortfolioValue_cash,
      updatePortfolioValue_assets]
  refine ⟨h1, ?_, ?_⟩ <;>
    rcases applyRiskControls_cases config (updatePortfolioValue st date prices) date with
      ⟨heq, -, -⟩ | ⟨-, ha, hc, ht, -⟩
  · rw [heq]; exact h1
  · rw [ha, ht, hc]
    simp [positionsValue]
  · rw [heq]
    intro hne
    exact absurd rfl hne
  · intro _
    exact ⟨ha, by rw [hc, ht]⟩

/-- Witness for C5: marking `exState` to market at a price of 50 gives
total value `100 + 6 × 50 = 400`; the 20% max-drawdown control then
liquidates (drawdown 60%), leaving empty positions and
`cash = totalValue`. -/
theorem C5_witness :
    (updatePortfolioValue exState 2 [("A", 50)]).portfolio.totalValue = 400 ∧
    (applyRiskControls exConfig (updatePortfolioValue exState 2 [("A", 50)]) 2).portfolio.assets
      = [] ∧
    (applyRiskControls exConfig (updatePortfolioValue exState 2 [("A", 50)]) 2).portfolio.cash =
      (applyRiskControls exConfig
        (updatePortfolioValue exState 2 [("A", 50)]) 2).portfolio.totalValue := by
  obtain ⟨h1, -, h3⟩ := C5_theorem exConfig exState 2 [("A", 50)]
  have hne : (applyRiskControls exConfig (updatePortfolioValue exState 2 [("A", 50)])
      2).liqEvents ≠ (updatePortfolioValue exState 2 [("A", 50)]).liqEvents := by
    norm_num [applyRiskControls, calculateCurrentDrawdown, liquidateAll,
      updatePortfolioValue, exConfig, exState, exPortfolio, lookupPrice, List.max?]
  refine ⟨?_, (h3 hne).1, (h3 hne).2⟩
  rw [h1]
  norm_num [updatePortfolioValue, positionsValue, lookupPrice, exState, exPortfolio]

/-! ## C6 -/

/-- Claim C6, confirmed: the risk controls use strict comparisons — the
state is changed by `applyRiskControls` (a liquidation is forced) exactly
when the current drawdown strictly exceeds `maxDrawdown / 100` or the
loss from the initial valuation strictly exceeds `stopLoss / 100`, both
evaluated on the state entering the risk check; a drawdown or loss
exactly equal to its threshold does not trigger. -/
theorem C6_theorem (config : SimulationConfig) (st : SimState) (date : Date) :
    applyRiskControls config st date ≠ st ↔
      (calculateCurrentDrawdown st > config.riskControls.maxDrawdown / 100 ∨
        (st.portfolio.values.headD 0 - st.portfolio.totalValue) /
          st.portfolio.values.headD 0 > config.riskControls.stopLoss / 100) := by
  rcases applyRiskControls_cases config st date with ⟨heq, hn1, hn2⟩ |
    ⟨htrig, -, -, -, -, -, -, -, -, hlen⟩
  · rw [heq]
    refine iff_of_false (fun h => h rfl) ?_
    rintro (h | h)
    · exact hn1 h
    · exact hn2 h
  · refine iff_of_true ?_ htrig
    intro heq
    rw [heq] at hlen
    exact absurd hlen (lt_irrefl _)

/-! ## C7 -/

/-- The BUY target notional as the specification words it: `weight ×
currentTotalValue` when a weight is given, else
`min(0.2 × availableCash, 10000)`. -/
def specBuyTarget (st : SimState) (signal : Signal) : ℚ :=
  match signal.weight with
  | some w => st.portfolio.totalValue * w
  | none => min (st.portfolio.cash * 0.2) 10000

/-- The specification's BUY share quantity: `floor(targetNotional / price)`. -/
def specBuyQty (st : SimState) (signal : Signal) (price : ℚ) : ℤ :=
  ⌊specBuyTarget st signal / price⌋

/-- Claim C7, confirmed (for the weights the strategies produce, which
are positive — a weight of exactly `0` would be JS-falsy and take the
no-weight fallback): a BUY executes exactly when the floored share
quantity is positive and affordable, in which case the position is
incremented, cash is debited by `quantity × price` and exactly one trade
record is appended; otherwise the signal is silently dropped and the
state is unchanged. -/
theorem C7_theorem (clock : Nat → Nat) (st : SimState) (signal : Signal) (date : Date)
    (price : ℚ) (ha : signal.action = .BUY) (hw : ∀ w ∈ signal.weight, 0 < w) :
    ((0 < specBuyQty st signal price ∧
        (specBuyQty st signal price : ℚ) * price ≤ st.portfolio.cash) →
      executeTrade clock st signal date (some price) =
        { st with
          portfolio :=
            { st.portfolio with
              assets := setQty st.portfolio.assets signal.ticker
                (lookupQty st.portfolio.assets signal.ticker + specBuyQty st signal price)
              cash := st.portfolio.cash - (specBuyQty st signal price : ℚ) * price }
          trades := st.trades ++
            [{ id := { date := date, ticker := signal.ticker, now := clock st.tick }
               date := date, ticker := signal.ticker, action := .BUY
               quantity := specBuyQty st signal price, price := price
               value := (specBuyQty st signal price : ℚ) * price
               reason := signal.reason }]
          tick := st.tick + 1 }) ∧
    (¬(0 < specBuyQty st signal price ∧
        (specBuyQty st signal price : ℚ) * price ≤ st.portfolio.cash) →
      executeTrade clock st signal date (some price) = st) := by
  rcases signal with ⟨t, a, w, r⟩
  obtain rfl : a = .BUY := ha
  cases w with
  | none =>
    constructor
    · intro hg
      simp only [specBuyQty, specBuyTarget] at hg
      simp only [executeTrade, specBuyQty, specBuyTarget]
      rw [if_pos hg]
    · intro hg
      simp only [specBuyQty, specBuyTarget] at hg
      simp only [executeTrade, specBuyQty, specBuyTarget]
      rw [if_neg hg]
  | some wv =>
    have hne : ¬ wv = 0 := ne_of_gt (hw wv rfl)
    constructor
    · intro hg
      simp only [specBuyQty, specBuyTarget] at hg
      simp only [executeTrade, specBuyQty, specBuyTarget, if_neg hne]
      rw [if_pos hg]
    · intro hg
      simp only [specBuyQty, specBuyTarget] at hg
      simp only [executeTrade, specBuyQty, specBuyTarget, if_neg hne]
      rw [if_neg hg]

/-- Witness for C7: a BUY of ticker `B` at price 7 with no weight on
`exState` (cash 100): target `min(0.2 × 100, 10000) = 20`, quantity
`⌊20 / 7⌋ = 2`, value 14 ≤ 100, so two shares are bought, cash drops to
86 and one trade is recorded. -/
theorem C7_witness :
    executeTrade (fun k => k) exState { ticker := "B", action := .BUY, weight := none, reason := "momentum" } 3 (some 7) =
      { portfolio :=
          { assets := [("A", 6), ("B", 2)], cash := 86, totalValue := 700
            dailyReturns := [-3/10], dates := [1], values := [1000, 700] }
        trades := [{ id := { date := 3, ticker := "B", now := 0 }
                     date := 3, ticker := "B", action := .BUY
                     quantity := 2, price := 7, value := 14, reason := "momentum" }]
        tick := 1
        liqEvents := [] } := by
  have hq : specBuyQty exState { ticker := "B", action := .BUY, weight := none, reason := "momentum" } 7 = 2 := by
    norm_num [specBuyQty, specBuyTarget, exState, exPortfolio]
  have h := (C7_theorem (fun k => k) exState { ticker := "B", action := .BUY, weight := none, reason := "momentum" } 3 7 rfl (by intro w hw; cases hw)).1
  rw [hq] at h
  rw [h (by norm_num [exState, exPortfolio])]
  norm_num [exState, exPortfolio, setQty, lookupQty]
  decide

theorem lookupQty_eq_zero_of_not_hasKey (assets : List (Ticker × ℤ)) (t : Ticker)
    (h : hasKey assets t = false) : lookupQty assets t = 0 := by
  unfold hasKey at h
  unfold lookupQty
  cases hfind : assets.find? (fun p => p.1 = t) with
  | none => rfl
  | some p =>
    rw [hfind] at h
    simp at h

/-! ## C8 -/

/-- Claim C8, confirmed: a SELL closes the whole position — when the held
quantity is positive the entry is removed entirely, cash is credited with
`quantity × price` and exactly one trade record is appended; for a ticker
with no position the signal is a no-op and the whole state (ledger and
trade log) is unchanged. -/
theorem C8_theorem (clock : Nat → Nat) (st : SimState) (signal : Signal) (date : Date)
    (price : ℚ) (ha : signal.action = .SELL) :
    ((0 < lookupQty st.portfolio.assets signal.ticker) →
      executeTrade clock st signal date (some price) =
        { st with
          portfolio :=
            { st.portfolio with
              assets := removeKey st.portfolio.assets signal.ticker
              cash := st.portfolio.cash +
                (lookupQty st.portfolio.assets signal.ticker : ℚ) * price }
          trades := st.trades ++
            [{ id := { date := date, ticker := signal.ticker, now := clock st.tick }
               date := date, ticker := signal.ticker, action := .SELL
               quantity := lookupQty st.portfolio.assets signal.ticker, price := price
               value := (lookupQty st.portfolio.assets signal.ticker : ℚ) * price
               reason := signal.reason }]
          tick := st.tick + 1 }) ∧
    (hasKey st.portfolio.assets signal.ticker = false →
      executeTrade clock st signal date (some price) = st) := by
  rcases signal with ⟨t, a, w, r⟩
  obtain rfl : a = .SELL := ha
  constructor
  · intro hg
    simp only [executeTrade]
    rw [if_pos hg]
  · intro hnk
    have hq := lookupQty_eq_zero_of_not_hasKey st.portfolio.assets t hnk
    simp only [executeTrade]
    rw [if_neg (by rw [hq]; exact lt_irrefl 0)]

/-- Witness for C8: selling the six held shares of `A` at price 50 from
`exState` removes the position, credits `6 × 50 = 300` cash and records
one SELL trade; a SELL of the unheld ticker `C` is a no-op. -/
theorem C8_witness :
    executeTrade (fun k => k) exState { ticker := "A", action := .SELL, weight := none, reason := "close" } 3 (some 50) =
      { portfolio :=
          { assets := [], cash := 400, totalValue := 700
            dailyReturns := [-3/10], dates := [1], values := [1000, 700] }
        trades := [{ id := { date := 3, ticker := "A", now := 0 }
                     date := 3, ticker := "A", action := .SELL
                     quantity := 6, price := 50, value := 300, reason := "close" }]
        tick := 1
        liqEvents := [] } ∧
    executeTrade (fun k => k) exState { ticker := "C", action := .SELL, weight := none, reason := "close" } 3 (some 50) = exState := by
  constructor
  · have h := (C8_theorem (fun k => k) exState { ticker := "A", action := .SELL, weight := none, reason := "close" } 3 50 rfl).1
    have hq : lookupQty exState.portfolio.assets "A" = 6 := by
      norm_num [lookupQty, exState, exPortfolio]
    rw [hq] at h
    rw [h (by norm_num)]
    norm_num [exState, exPortfolio, removeKey, List.eraseP]
  · exact (C8_theorem (fun k => k) exState { ticker := "C", action := .SELL, weight := none, reason := "close" } 3 50 rfl).2
      (by decide)

/-! ## Lemmas about the daily loop (used by C3 and C4) -/

/-- `executeTrade` never touches the valuation history, the running total
value, the dates, the daily returns or the liquidation log. -/
theorem executeTrade_hist (clock : Nat → Nat) (st : SimState) (signal : Signal)
    (date : Date) (price? : Option ℚ) :
    (executeTrade clock st signal date price?).portfolio.totalValue =
      st.portfolio.totalValue ∧
    (executeTrade clock st signal date price?).portfolio.values = st.portfolio.values ∧
    (executeTrade clock st signal date price?).portfolio.dailyReturns =
      st.portfolio.dailyReturns ∧
    (executeTrade clock st signal date price?).portfolio.dates = st.portfolio.dates ∧
    (executeTrade clock st signal date price?).liqEvents = st.liqEvents := by
  rcases signal with ⟨t, a, w, r⟩
  cases a <;> cases price?
  · exact ⟨rfl, rfl, rfl, rfl, rfl⟩
  · simp only [executeTrade]
    split <;> exact ⟨rfl, rfl, rfl, rfl, rfl⟩
  · exact ⟨rfl, rfl, rfl, rfl, rfl⟩
  · simp only [executeTrade]
    split <;> exact ⟨rfl, rfl, rfl, rfl, rfl⟩

/-- The trade-execution fold of a day preserves the same fields. -/
theorem foldExec_hist (clock : Nat → Nat) (date : Date) (prices : List (Ticker × ℚ))
    (signals : List Signal) (st : SimState) :
    ((signals.foldl
        (fun s signal => executeTrade clock s signal date (lookupPrice prices signal.ticker))
        st).portfolio.totalValue = st.portfolio.totalValue) ∧
    ((signals.foldl
        (fun s signal => executeTrade clock s signal date (lookupPrice prices signal.ticker))
        st).portfolio.values = st.portfolio.values) ∧
    ((signals.foldl
        (fun s signal => executeTrade clock s signal date (lookupPrice prices signal.ticker))
        st).portfolio.dailyReturns = st.portfolio.dailyReturns) ∧
    ((signals.foldl
        (fun s signal => executeTrade clock s signal date (lookupPrice prices signal.ticker))
        st).portfolio.dates = st.portfolio.dates) ∧
    ((signals.foldl
        (fun s signal => executeTrade clock s signal date (lookupPrice prices signal.ticker))
        st).liqEvents = st.liqEvents) := by
  induction signals generalizing st with
  | nil => exact ⟨rfl, rfl, rfl, rfl, rfl⟩
  | cons signal rest ih =>
    simp only [List.foldl_cons]
    have h1 := executeTrade_hist clock st signal date (lookupPrice prices signal.ticker)
    have h2 := ih (executeTrade clock st signal date (lookupPrice prices signal.ticker))
    exact ⟨h2.1.trans h1.1, h2.2.1.trans h1.2.1, h2.2.2.1.trans h1.2.2.1,
      h2.2.2.2.1.trans h1.2.2.2.1, h2.2.2.2.2.trans h1.2.2.2.2⟩

/-- The shape of a simulated day: it appends exactly one valuation, one
date and one daily return — the return computed against the previous
`totalValue` field — and leaves the liquidation log alone. -/
theorem simulateDay_shape (config : SimulationConfig) (hist : List (Ticker × List Bar))
    (clock : Nat → Nat) (st : SimState) (date : Date) (dayIndex : Nat) :
    (simulateDay config hist clock st date dayIndex).portfolio.values =
      st.portfolio.values ++
        [(simulateDay config hist clock st date dayIndex).portfolio.totalValue] ∧
    (simulateDay config hist clock st date dayIndex).portfolio.dailyReturns =
      st.portfolio.dailyReturns ++
        [((simulateDay config hist clock st date dayIndex).portfolio.totalValue -
            st.portfolio.totalValue) / st.portfolio.totalValue] ∧
    (simulateDay config hist clock st date dayIndex).portfolio.dates =
      st.portfolio.dates ++ [date] ∧
    (simulateDay config hist clock st date dayIndex).liqEvents = st.liqEvents := by
  have hfold := foldExec_hist clock date (dayPrices config hist date)
    (generateSignals config hist st.portfolio date dayIndex (dayPrices config hist date)) st
  simp only [simulateDay, updatePortfolioValue]
  exact ⟨by rw [hfold.2.1], by rw [hfold.2.2.1, hfold.1], by rw [hfold.2.2.2.1],
    hfold.2.2.2.2⟩

/-- The ledger invariant maintained by the daily loop: the valuation
history starts with the initial capital, the daily returns are one
shorter, and — as long as no liquidation has fired — the running
`totalValue` is the last recorded valuation and every daily return obeys
the specification's formula. -/
def ledgerInv (cap : ℚ) (st : SimState) : Prop :=
  st.portfolio.values ≠ [] ∧
  st.portfolio.values.getD 0 0 = cap ∧
  st.portfolio.values.length = st.portfolio.dailyReturns.length + 1 ∧
  (st.liqEvents = [] →
    st.portfolio.totalValue =
      st.portfolio.values.getD (st.portfolio.values.length - 1) 0 ∧
    ∀ i < st.portfolio.dailyReturns.length,
      st.portfolio.dailyReturns.getD i 0 =
        (st.portfolio.values.getD (i + 1) 0 - st.portfolio.values.getD i 0) /
          st.portfolio.values.getD i 0)

theorem ledgerInv_initState (config : SimulationConfig) :
    ledgerInv config.initialCapital (initState config) := by
  refine ⟨by simp [initState], by simp [initState], by simp [initState],
    fun _ => ⟨by simp [initState], ?_⟩⟩
  intro i hi
  simp [initState] at hi

theorem ledgerInv_simulateDay (config : SimulationConfig) (hist : List (Ticker × List Bar))
    (clock : Nat → Nat) (cap : ℚ) (st : SimState) (date : Date) (dayIndex : Nat)
    (h : ledgerInv cap st) :
    ledgerInv cap (simulateDay config hist clock st date dayIndex) := by
  obtain ⟨hne, h0, hlen, himp⟩ := h
  obtain ⟨hv, hr, -, hl⟩ := simulateDay_shape config hist clock st date dayIndex
  have hpos : 0 < st.portfolio.values.length := List.length_pos.mpr hne
  refine ⟨by rw [hv]; simp, ?_, ?_, ?_⟩
  · rw [hv, List.getD_append _ _ _ _ hpos]
    exact h0
  · rw [hv, hr]
    simp [hlen]
  · intro hliq
    rw [hl] at hliq
    obtain ⟨htv, hform⟩ := himp hliq
    constructor
    · rw [hv]
      have hix : (st.portfolio.values ++
          [(simulateDay config hist clock st date dayIndex).portfolio.totalValue]).length - 1 =
          st.portfolio.values.length := by simp
      rw [hix, List.getD_append_right _ _ _ _ le_rfl]
      simp
    · intro i hi
      rw [hr, List.length_append] at hi
      simp only [List.length_singleton] at hi
      rcases Nat.lt_succ_iff_lt_or_eq.mp hi with hi' | hi'
      · rw [hr, hv]
        rw [List.getD_append _ _ _ _ hi']
        rw [List.getD_append _ _ _ _ (by omega : i + 1 < st.portfolio.values.length)]
        rw [List.getD_append _ _ _ _ (by omega : i < st.portfolio.values.length)]
        exact hform i hi'
      · subst hi'
        rw [hr, hv]
        rw [List.getD_append_right _ _ _ _ le_rfl, Nat.sub_self]
        rw [List.getD_append_right _ _ _ _ (by omega : st.portfolio.values.length ≤
          st.portfolio.dailyReturns.length + 1)]
        rw [List.getD_append _ _ _ _ (by omega : st.portfolio.dailyReturns.length <
          st.portfolio.values.length)]
        have hlast : st.portfolio.values.getD st.portfolio.dailyReturns.length 0 =
            st.portfolio.totalValue := by
          rw [htv]
          congr 1
          omega
        rw [hlast]
        have hone : st.portfolio.dailyReturns.length + 1 - st.portfolio.values.length = 0 := by
          omega
        rw [hone]
        rfl

theorem ledgerInv_risk (config : SimulationConfig) (cap : ℚ) (st : SimState) (date : Date)
    (h : ledgerInv cap st) : ledgerInv cap (applyRiskControls config st date) := by
  obtain ⟨hne, h0, hlen, himp⟩ := h
  rcases applyRiskControls_cases config st date with ⟨heq, -, -⟩ |
    ⟨-, -, -, -, hvals, hdr, -, -, -, hliqlen⟩
  · rw [heq]
    exact ⟨hne, h0, hlen, himp⟩
  · refine ⟨by rw [hvals]; exact hne, by rw [hvals]; exact h0,
      by rw [hvals, hdr]; exact hlen, ?_⟩
    intro hliq
    rw [hliq] at hliqlen
    simp at hliqlen

theorem ledgerInv_foldl (config : SimulationConfig) (hist : List (Ticker × List Bar))
    (clock : Nat → Nat) (l : List (Nat × Date)) (st : SimState)
    (h : ledgerInv config.initialCapital st) :
    ledgerInv config.initialCapital (l.foldl (dayStep config hist clock) st) := by
  induction l generalizing st with
  | nil => exact h
  | cons p rest ih =>
    simp only [List.foldl_cons]
    exact ih _ (ledgerInv_risk config _ _ p.2
      (ledgerInv_simulateDay config hist clock _ st p.2 p.1 h))

/-! ## C3 -/

/-- A 3-day equal-weight run that buys 10 shares at 100 on day 0 and is
forcibly liquidated on day 1 after the price halves. -/
def cfg3 : SimulationConfig :=
  { tickers := ["A"], startDate := 1, endDate := 3, initialCapital := 1050
    strategy := "equal-weight"
    riskControls := { maxDrawdown := 20, volatilityCap := 25, stopLoss := 15 } }

def hist3 : List (Ticker × List Bar) :=
  [("A", [⟨1, 100⟩, ⟨2, 50⟩, ⟨3, 60⟩])]

/-- Claim C3 counterexample.  In the `cfg3` run a liquidation fires on
day 1 and resets `totalValue` from 550 to the cash balance 50 without
recording that reset in the valuation history, so day 2's return is
computed against 50 instead of `values[2] = 550`: `dailyReturns[2] = 0`,
whereas the claimed formula demands `(50 − 550) / 550 = −10/11`. -/
theorem C3_counterexample :
    (simulateCore cfg3 hist3 (fun k => k)).liqEvents =
      [(2, "Max drawdown exceeded"), (2, "Stop loss triggered"),
        (3, "Max drawdown exceeded"), (3, "Stop loss triggered")] ∧
    (simulateCore cfg3 hist3 (fun k => k)).portfolio.values = [1050, 1050, 550, 50] ∧
    (simulateCore cfg3 hist3 (fun k => k)).portfolio.dailyReturns = [0, -10/21, 0] ∧
    (simulateCore cfg3 hist3 (fun k => k)).portfolio.dailyReturns.getD 2 0 ≠
      ((simulateCore cfg3 hist3 (fun k => k)).portfolio.values.getD 3 0 -
        (simulateCore cfg3 hist3 (fun k => k)).portfolio.values.getD 2 0) /
        (simulateCore cfg3 hist3 (fun k => k)).portfolio.values.getD 2 0 := by
  norm_num [simulateCore, dayStep, simulateDay, dayPrices, generateSignals, executeTrade,
    updatePortfolioValue, applyRiskControls, calculateCurrentDrawdown, liquidateAll,
    getTradingDates, initState, cfg3, hist3, lookupBars, lookupPrice, lookupQty, setQty,
    hasKey, List.max?, List.filterMap, List.dedup, List.insertionSort, List.orderedInsert,
    List.enum, List.enumFrom]

/-- Claim C3, amended: at every point of a run, `valuationHistory[0]`
equals the initial capital and `dailyReturns` is one entry shorter than
`valuationHistory`; the per-index return formula
`dailyReturns[i] = (values[i+1] − values[i]) / values[i]` holds for every
run in which no forced liquidation fires.  After a liquidation it can
fail, because `liquidateAll` resets `totalValue` without appending the
reset to the valuation history, and the next day's return is computed
against that reset value (see the counterexample). -/
theorem C3_theorem (config : SimulationConfig) (hist : List (Ticker × List Bar))
    (clock : Nat → Nat) :
    (simulateCore config hist clock).portfolio.values.getD 0 0 = config.initialCapital ∧
    (simulateCore config hist clock).portfolio.values.length =
      (simulateCore config hist clock).portfolio.dailyReturns.length + 1 ∧
    ((simulateCore config hist clock).liqEvents = [] →
      ∀ i < (simulateCore config hist clock).portfolio.dailyReturns.length,
        (simulateCore config hist clock).portfolio.dailyReturns.getD i 0 =
          ((simulateCore config hist clock).portfolio.values.getD (i + 1) 0 -
            (simulateCore config hist clock).portfolio.values.getD i 0) /
            (simulateCore config hist clock).portfolio.values.getD i 0) := by
  have h := ledgerInv_foldl config hist clock (getTradingDates hist).enum (initState config)
    (ledgerInv_initState config)
  obtain ⟨-, h0, hlen, himp⟩ := h
  exact ⟨h0, hlen, fun hliq => (himp hliq).2⟩

/-- A one-day run with no liquidation: buy 10 shares at 100 with capital
1000, end the day at full value. -/
def cfgW : SimulationConfig :=
  { tickers := ["A"], startDate := 1, endDate := 1, initialCapital := 1000
    strategy := "equal-weight"
    riskControls := { maxDrawdown := 20, volatilityCap := 25, stopLoss := 15 } }

def histW : List (Ticker × List Bar) := [("A", [⟨1, 100⟩])]

/-- Witness for C3: the amended statement evaluated on the liquidation
free one-day run `cfgW`. -/
theorem C3_witness :
    (simulateCore cfgW histW (fun k => k)).portfolio.values.getD 0 0 = 1000 ∧
    (simulateCore cfgW histW (fun k => k)).portfolio.values.length =
      (simulateCore cfgW histW (fun k => k)).portfolio.dailyReturns.length + 1 ∧
    (simulateCore cfgW histW (fun k => k)).portfolio.dailyReturns.getD 0 0 =
      ((simulateCore cfgW histW (fun k => k)).portfolio.values.getD 1 0 -
        (simulateCore cfgW histW (fun k => k)).portfolio.values.getD 0 0) /
        (simulateCore cfgW histW (fun k => k)).portfolio.values.getD 0 0 := by
  obtain ⟨h0, hlen, hform⟩ := C3_theorem cfgW histW (fun k => k)
  have hliq : (simulateCore cfgW histW (fun k => k)).liqEvents = [] := by
    norm_num [simulateCore, dayStep, simulateDay, dayPrices, generateSignals, executeTrade,
      updatePortfolioValue, applyRiskControls, calculateCurrentDrawdown, liquidateAll,
      getTradingDates, initState, cfgW, histW, lookupBars, lookupPrice, lookupQty, setQty,
      hasKey, List.max?, List.filterMap, List.dedup, List.insertionSort,
      List.orderedInsert, List.enum, List.enumFrom]
  have hlen1 : (simulateCore cfgW histW (fun k => k)).portfolio.dailyReturns.length = 1 := by
    norm_num [simulateCore, dayStep, simulateDay, dayPrices, generateSignals, executeTrade,
      updatePortfolioValue, applyRiskControls, calculateCurrentDrawdown, liquidateAll,
      getTradingDates, initState, cfgW, histW, lookupBars, lookupPrice, lookupQty, setQty,
      hasKey, List.max?, List.filterMap, List.dedup, List.insertionSort,
      List.orderedInsert, List.enum, List.enumFrom]
  refine ⟨by rw [h0]; norm_num [cfgW], hlen, ?_⟩
  exact hform hliq 0 (by rw [hlen1]; norm_num)

/-! ## C4 -/

/-- A trade with its `id` field erased: everything the two runs of the
idempotence claim are compared on, except the id (which embeds
`Date.now()`). -/
structure ETrade where
  date : Date
  ticker : Ticker
  action : TradeAction
  quantity : ℤ
  price : ℚ
  value : ℚ
  reason : String
deriving DecidableEq, Repr

def eraseId (t : Trade) : ETrade :=
  { date := t.date, ticker := t.ticker, action := t.action, quantity := t.quantity
    price := t.price, value := t.value, reason := t.reason }

/-- Two simulator states that agree everywhere except possibly in the
`id` fields of their trade logs. -/
def stateAgree (st1 st2 : SimState) : Prop :=
  st1.portfolio = st2.portfolio ∧ st1.tick = st2.tick ∧ st1.liqEvents = st2.liqEvents ∧
  st1.trades.map eraseId = st2.trades.map eraseId

theorem executeTrade_agree (c1 c2 : Nat → Nat) (st1 st2 : SimState) (signal : Signal)
    (date : Date) (price? : Option ℚ) (h : stateAgree st1 st2) :
    stateAgree (executeTrade c1 st1 signal date price?)
      (executeTrade c2 st2 signal date price?) := by
  obtain ⟨hp, hk, hl, ht⟩ := h
  rcases signal with ⟨t, a, w, r⟩
  cases a <;> cases price?
  · exact ⟨hp, hk, hl, ht⟩
  · simp only [executeTrade]
    rw [← hp]
    split
    · refine ⟨rfl, by rw [hk], hl, ?_⟩
      simp only [List.map_append, ht]
      rfl
    · exact ⟨hp, hk, hl, ht⟩
  · exact ⟨hp, hk, hl, ht⟩
  · simp only [executeTrade]
    rw [← hp]
    split
    · refine ⟨rfl, by rw [hk], hl, ?_⟩
      simp only [List.map_append, ht]
      rfl
    · exact ⟨hp, hk, hl, ht⟩

theorem foldExec_agree (c1 c2 : Nat → Nat) (date : Date) (prices : List (Ticker × ℚ))
    (signals : List Signal) (st1 st2 : SimState) (h : stateAgree st1 st2) :
    stateAgree
      (signals.foldl
        (fun s signal => executeTrade c1 s signal date (lookupPrice prices signal.ticker)) st1)
      (signals.foldl
        (fun s signal => executeTrade c2 s signal date (lookupPrice prices signal.ticker))
        st2) := by
  induction signals generalizing st1 st2 with
  | nil => exact h
  | cons signal rest ih =>
    simp only [List.foldl_cons]
    exact ih _ _ (executeTrade_agree c1 c2 st1 st2 signal date _ h)

theorem updatePortfolioValue_agree (st1 st2 : SimState) (date : Date)
    (prices : List (Ticker × ℚ)) (h : stateAgree st1 st2) :
    stateAgree (updatePortfolioValue st1 date prices) (updatePortfolioValue st2 date prices) := by
  obtain ⟨hp, hk, hl, ht⟩ := h
  refine ⟨?_, hk, hl, ht⟩
  simp only [updatePortfolioValue]
  rw [hp]

theorem simulateDay_agree (config : SimulationConfig) (hist : List (Ticker × List Bar))
    (c1 c2 : Nat → Nat) (st1 st2 : SimState) (date : Date) (dayIndex : Nat)
    (h : stateAgree st1 st2) :
    stateAgree (simulateDay config hist c1 st1 date dayIndex)
      (simulateDay config hist c2 st2 date dayIndex) := by
  have hp := h.1
  simp only [simulateDay]
  rw [← hp]
  exact updatePortfolioValue_agree _ _ date _
    (foldExec_agree c1 c2 date _ _ st1 st2 h)

theorem phase1_agree (config : SimulationConfig) (date : Date) (st1 st2 : SimState)
    (h : stateAgree st1 st2) :
    stateAgree
      (if calculateCurrentDrawdown st1 > config.riskControls.maxDrawdown / 100 then
        liquidateAll st1 date "Max drawdown exceeded" else st1)
      (if calculateCurrentDrawdown st2 > config.riskControls.maxDrawdown / 100 then
        liquidateAll st2 date "Max drawdown exceeded" else st2) := by
  obtain ⟨hp, hk, hl, ht⟩ := h
  have e : calculateCurrentDrawdown st2 = calculateCurrentDrawdown st1 := by
    unfold calculateCurrentDrawdown
    rw [hp]
  rw [e]
  split
  · exact ⟨by simp only [liquidateAll]; rw [hp], hk,
      by simp only [liquidateAll]; rw [hl], ht⟩
  · exact ⟨hp, hk, hl, ht⟩

theorem phase2_agree (config : SimulationConfig) (date : Date) (st1 st2 : SimState)
    (h : stateAgree st1 st2) :
    stateAgree
      (if (st1.portfolio.values.headD 0 - st1.portfolio.totalValue) /
            st1.portfolio.values.headD 0 > config.riskControls.stopLoss / 100 then
        liquidateAll st1 date "Stop loss triggered" else st1)
      (if (st2.portfolio.values.headD 0 - st2.portfolio.totalValue) /
            st2.portfolio.values.headD 0 > config.riskControls.stopLoss / 100 then
        liquidateAll st2 date "Stop loss triggered" else st2) := by
  obtain ⟨hp, hk, hl, ht⟩ := h
  rw [← hp]
  split
  · exact ⟨by simp only [liquidateAll]; rw [hp], hk,
      by simp only [liquidateAll]; rw [hl], ht⟩
  · exact ⟨hp, hk, hl, ht⟩

theorem applyRiskControls_agree (config : SimulationConfig) (st1 st2 : SimState)
    (date : Date) (h : stateAgree st1 st2) :
    stateAgree (applyRiskControls config st1 date) (applyRiskControls config st2 date) := by
  simp only [applyRiskControls]
  exact phase2_agree config date _ _ (phase1_agree config date st1 st2 h)

theorem simulateCore_agree (config : SimulationConfig) (hist : List (Ticker × List Bar))
    (c1 c2 : Nat → Nat) :
    stateAgree (simulateCore config hist c1) (simulateCore config hist c2) := by
  unfold simulateCore
  have key : ∀ (l : List (Nat × Date)) (st1 st2 : SimState), stateAgree st1 st2 →
      stateAgree (l.foldl (dayStep config hist c1) st1)
        (l.foldl (dayStep config hist c2) st2) := by
    intro l
    induction l with
    | nil => exact fun _ _ h => h
    | cons p rest ih =>
      intro st1 st2 h
      simp only [List.foldl_cons]
      exact ih _ _ (applyRiskControls_agree config _ _ p.2
        (simulateDay_agree config hist c1 c2 st1 st2 p.2 p.1 h))
  exact key _ _ _ ⟨rfl, rfl, rfl, rfl⟩

/-- `calculateWinRate` on id-erased trades: the same computation as the
source's, phrased on `ETrade` (it never reads the id field). -/
def winRateE (trades : List ETrade) : ℚ :=
  if trades.length = 0 then 0
  else
    let sellTrades := trades.filter (fun t => t.action = .SELL)
    let winningTrades := sellTrades.filter (fun trade =>
      ((trades.find? (fun t =>
          t.ticker = trade.ticker ∧ t.action = .BUY ∧ t.date < trade.date)).map
        (fun buyTrade => decide (trade.price > buyTrade.price))).getD false)
    if 0 < sellTrades.length then (winningTrades.length : ℚ) / (sellTrades.length : ℚ)
    else 0

theorem calculateWinRate_factor (trades : List Trade) :
    calculateWinRate trades = winRateE (trades.map eraseId) := by
  simp only [calculateWinRate, winRateE]
  have hfind : ∀ tr : Trade,
      ((trades.map eraseId).find? (fun t =>
        t.ticker = (eraseId tr).ticker ∧ t.action = .BUY ∧ t.date < (eraseId tr).date)) =
      (trades.find? (fun t =>
        t.ticker = tr.ticker ∧ t.action = .BUY ∧ t.date < tr.date)).map eraseId := by
    intro tr
    rw [List.find?_map]
    rfl
  have hsell : (trades.map eraseId).filter (fun t => t.action = .SELL) =
      (trades.filter (fun t => t.action = .SELL)).map eraseId := by
    rw [List.filter_map]
    rfl
  have hwinfun : ∀ tr : Trade,
      (((trades.map eraseId).find? (fun t =>
          t.ticker = (eraseId tr).ticker ∧ t.action = .BUY ∧ t.date < (eraseId tr).date)).map
        (fun buyTrade => decide ((eraseId tr).price > buyTrade.price))).getD false =
      ((trades.find? (fun t =>
          t.ticker = tr.ticker ∧ t.action = .BUY ∧ t.date < tr.date)).map
        (fun buyTrade => decide (tr.price > buyTrade.price))).getD false := by
    intro tr
    rw [hfind tr, Option.map_map]
    rfl
  have hwin : ((trades.map eraseId).filter (fun t => t.action = .SELL)).filter (fun trade =>
      (((trades.map eraseId).find? (fun t =>
          t.ticker = trade.ticker ∧ t.action = .BUY ∧ t.date < trade.date)).map
        (fun buyTrade => decide (trade.price > buyTrade.price))).getD false) =
      ((trades.filter (fun t => t.action = .SELL)).filter (fun trade =>
        ((trades.find? (fun t =>
            t.ticker = trade.ticker ∧ t.action = .BUY ∧ t.date < trade.date)).map
          (fun buyTrade => decide (trade.price > buyTrade.price))).getD false)).map
        eraseId := by
    rw [hsell, List.filter_map]
    congr 1
    apply List.filter_congr
    intro tr _
    exact hwinfun tr
  rw [hwin, hsell]
  simp only [List.length_map]

theorem calculateMetrics_agree (msqrt : ℚ → ℚ) (st1 st2 : SimState)
    (h : stateAgree st1 st2) : calculateMetrics msqrt st1 = calculateMetrics msqrt st2 := by
  obtain ⟨hp, -, -, ht⟩ := h
  unfold calculateMetrics
  rw [hp, calculateWinRate_factor, calculateWinRate_factor, ht]

theorem generateChartData_agree (config : SimulationConfig) (st1 st2 : SimState)
    (h : stateAgree st1 st2) :
    generateChartData config st1 = generateChartData config st2 := by
  unfold generateChartData
  rw [h.1]

/-- Claim C4, amended: two runs of the same configuration against the
same deterministic price source produce identical portfolios, identical
metrics, identical chart data, and trade logs identical in every field
except `id` — the id embeds the `Date.now()` wall-clock value and so
differs between runs made at different times (see the counterexample). -/
theorem C4_theorem (config : SimulationConfig) (fetch : Ticker → Except String (List Bar))
    (c1 c2 : Nat → Nat) (msqrt : ℚ → ℚ) :
    (simulate config fetch c1 msqrt).map (fun r =>
        (r.portfolio, r.trades.map eraseId, r.metrics, r.chartData)) =
      (simulate config fetch c2 msqrt).map (fun r =>
        (r.portfolio, r.trades.map eraseId, r.metrics, r.chartData)) := by
  unfold simulate
  cases hload : loadHistoricalData fetch config.tickers with
  | error e => rfl
  | ok hist =>
    simp only [Except.map]
    have h := simulateCore_agree config hist c1 c2
    have hm := calculateMetrics_agree msqrt _ _ h
    have hc := generateChartData_agree config _ _ h
    rw [h.1, h.2.2.2, hm, hc]

/-- Claim C4 counterexample.  The same one-day configuration and data run
at two different wall-clock times (`Date.now()` returning 0 and 5)
produce trade logs that are not identical: the single BUY trade carries a
different `id`. -/
theorem C4_counterexample :
    (simulateCore cfgW histW (fun k => k)).trades =
      [{ id := { date := 1, ticker := "A", now := 0 }, date := 1, ticker := "A"
         action := .BUY, quantity := 10, price := 100, value := 1000
         reason := "Initial equal weight allocation" }] ∧
    (simulateCore cfgW histW (fun k => k + 5)).trades =
      [{ id := { date := 1, ticker := "A", now := 5 }, date := 1, ticker := "A"
         action := .BUY, quantity := 10, price := 100, value := 1000
         reason := "Initial equal weight allocation" }] ∧
    (simulateCore cfgW histW (fun k => k)).trades ≠
      (simulateCore cfgW histW (fun k => k + 5)).trades := by
  have h1 : (simulateCore cfgW histW (fun k => k)).trades =
      [{ id := { date := 1, ticker := "A", now := 0 }, date := 1, ticker := "A"
         action := .BUY, quantity := 10, price := 100, value := 1000
         reason := "Initial equal weight allocation" }] := by
    norm_num [simulateCore, dayStep, simulateDay, dayPrices, generateSignals, executeTrade,
      updatePortfolioValue, applyRiskControls, calculateCurrentDrawdown, liquidateAll,
      getTradingDates, initState, cfgW, histW, lookupBars, lookupPrice, lookupQty, setQty,
      hasKey, List.max?, List.filterMap, List.dedup, List.insertionSort,
      List.orderedInsert, List.enum, List.enumFrom]
  have h2 : (simulateCore cfgW histW (fun k => k + 5)).trades =
      [{ id := { date := 1, ticker := "A", now := 5 }, date := 1, ticker := "A"
         action := .BUY, quantity := 10, price := 100, value := 1000
         reason := "Initial equal weight allocation" }] := by
    norm_num [simulateCore, dayStep, simulateDay, dayPrices, generateSignals, executeTrade,
      updatePortfolioValue, applyRiskControls, calculateCurrentDrawdown, liquidateAll,
      getTradingDates, initState, cfgW, histW, lookupBars, lookupPrice, lookupQty, setQty,
      hasKey, List.max?, List.filterMap, List.dedup, List.insertionSort,
      List.orderedInsert, List.enum, List.enumFrom]
  refine ⟨h1, h2, ?_⟩
  rw [h1, h2]
  simp [Trade.mk.injEq, TradeId.mk.injEq]

/-! ## C9 -/

theorem getRecentPrices_length_le (hist : List (Ticker × List Bar)) (t : Ticker)
    (date : Date) (days : Nat) : (getRecentPrices hist t date days).length ≤ days := by
  simp only [getRecentPrices]
  split
  · simp
  · split
    · simp
    · rename_i i hidx hge
      simp only [List.length_map, List.length_drop, List.length_take]
      omega

/-- The 20-day momentum of a ticker as the source computes it:
`(latest − earliest) / earliest` over the trailing window. -/
def momentumOf (hist : List (Ticker × List Bar)) (t : Ticker) (date : Date) : ℚ :=
  ((getRecentPrices hist t date 20).getLastD 0 - (getRecentPrices hist t date 20).headD 0) /
    (getRecentPrices hist t date 20).headD 0

/-- The BUY signal the momentum strategy emits for ticker `t`. -/
def momentumBuySignal (hist : List (Ticker × List Bar)) (t : Ticker) (date : Date) : Signal :=
  { ticker := t, action := .BUY, weight := some 0.2
    reason := momentumBuyReason (momentumOf hist t date) }

/-- The SELL signal the momentum strategy emits for ticker `t`. -/
def momentumSellSignal (hist : List (Ticker × List Bar)) (t : Ticker) (date : Date) :
    Signal :=
  { ticker := t, action := .SELL, weight := none
    reason := momentumSellReason (momentumOf hist t date) }

/-- Claim C9, confirmed: under the momentum strategy, the BUY signal for
a ticker (weight 0.2) is emitted exactly when the day index is at least
20, the ticker's trailing window holds exactly 20 closes, the momentum
exceeds 0.05 and the ticker has no open position; the SELL signal exactly
when instead the momentum is below −0.05 and a position is open; and
every emitted signal requires the day-index and full-window conditions. -/
theorem C9_theorem (config : SimulationConfig) (hist : List (Ticker × List Bar))
    (portfolio : Portfolio) (date : Date) (dayIndex : Nat) (prices : List (Ticker × ℚ))
    (t : Ticker) (hstrat : config.strategy = "momentum") :
    (momentumBuySignal hist t date ∈
        generateSignals config hist portfolio date dayIndex prices ↔
      (t ∈ config.tickers ∧ 20 ≤ dayIndex ∧
        (getRecentPrices hist t date 20).length = 20 ∧
        momentumOf hist t date > 0.05 ∧ hasKey portfolio.assets t = false)) ∧
    (momentumSellSignal hist t date ∈
        generateSignals config hist portfolio date dayIndex prices ↔
      (t ∈ config.tickers ∧ 20 ≤ dayIndex ∧
        (getRecentPrices hist t date 20).length = 20 ∧
        momentumOf hist t date < -0.05 ∧ hasKey portfolio.assets t = true)) ∧
    (∀ sig ∈ generateSignals config hist portfolio date dayIndex prices,
      sig.ticker = t →
        20 ≤ dayIndex ∧ (getRecentPrices hist t date 20).length = 20) := by
  have hlen20 : ∀ a, 20 ≤ (getRecentPrices hist a date 20).length ↔
      (getRecentPrices hist a date 20).length = 20 := fun a =>
    ⟨fun h => le_antisymm (getRecentPrices_length_le hist a date 20) h, fun h => h.ge⟩
  unfold generateSignals
  rw [hstrat]
  rw [if_neg (by decide : ¬("momentum" : String) = "equal-weight")]
  rw [if_pos (rfl : ("momentum" : String) = "momentum")]
  by_cases hday : 20 ≤ dayIndex
  · rw [if_pos hday]
    refine ⟨?_, ?_, ?_⟩
    · rw [List.mem_filterMap]
      constructor
      · rintro ⟨a, hmem, hfa⟩
        by_cases hl : 20 ≤ (getRecentPrices hist a date 20).length
        · rw [if_pos hl] at hfa
          by_cases hbuy : ((getRecentPrices hist a date 20).getLastD 0 -
                (getRecentPrices hist a date 20).headD 0) /
                (getRecentPrices hist a date 20).headD 0 > 0.05 ∧
              hasKey portfolio.assets a = false
          · rw [if_pos hbuy] at hfa
            have hsig := Option.some.inj hfa
            have hat : a = t := congrArg Signal.ticker hsig
            subst hat
            exact ⟨hmem, hday, (hlen20 a).mp hl, hbuy.1, hbuy.2⟩
          · rw [if_neg hbuy] at hfa
            by_cases hsell : ((getRecentPrices hist a date 20).getLastD 0 -
                  (getRecentPrices hist a date 20).headD 0) /
                  (getRecentPrices hist a date 20).headD 0 < -0.05 ∧
                hasKey portfolio.assets a = true
            · rw [if_pos hsell] at hfa
              have hact := congrArg Signal.action (Option.some.inj hfa)
              simp [momentumBuySignal] at hact
            · rw [if_neg hsell] at hfa
              cases hfa
        · rw [if_neg hl] at hfa
          cases hfa
      · rintro ⟨hmem, -, hl, hm, hk⟩
        refine ⟨t, hmem, ?_⟩
        rw [if_pos ((hlen20 t).mpr hl)]
        rw [if_pos (⟨hm, hk⟩ : ((getRecentPrices hist t date 20).getLastD 0 -
            (getRecentPrices hist t date 20).headD 0) /
            (getRecentPrices hist t date 20).headD 0 > 0.05 ∧
          hasKey portfolio.assets t = false)]
        rfl
    · rw [List.mem_filterMap]
      constructor
      · rintro ⟨a, hmem, hfa⟩
        by_cases hl : 20 ≤ (getRecentPrices hist a date 20).length
        · rw [if_pos hl] at hfa
          by_cases hbuy : ((getRecentPrices hist a date 20).getLastD 0 -
                (getRecentPrices hist a date 20).headD 0) /
                (getRecentPrices hist a date 20).headD 0 > 0.05 ∧
              hasKey portfolio.assets a = false
          · rw [if_pos hbuy] at hfa
            have hact := congrArg Signal.action (Option.some.inj hfa)
            simp [momentumSellSignal] at hact
          · rw [if_neg hbuy] at hfa
            by_cases hsell : ((getRecentPrices hist a date 20).getLastD 0 -
                  (getRecentPrices hist a date 20).headD 0) /
                  (getRecentPrices hist a date 20).headD 0 < -0.05 ∧
                hasKey portfolio.assets a = true
            · rw [if_pos hsell] at hfa
              have hsig := Option.some.inj hfa
              have hat : a = t := congrArg Signal.ticker hsig
              subst hat
              exact ⟨hmem, hday, (hlen20 a).mp hl, hsell.1, hsell.2⟩
            · rw [if_neg hsell] at hfa
              cases hfa
        · rw [if_neg hl] at hfa
          cases hfa
      · rintro ⟨hmem, -, hl, hm, hk⟩
        refine ⟨t, hmem, ?_⟩
        rw [if_pos ((hlen20 t).mpr hl)]
        rw [if_neg (?_ : ¬(((getRecentPrices hist t date 20).getLastD 0 -
            (getRecentPrices hist t date 20).headD 0) /
            (getRecentPrices hist t date 20).headD 0 > 0.05 ∧
          hasKey portfolio.assets t = false))]
        · rw [if_pos (⟨hm, hk⟩ : ((getRecentPrices hist t date 20).getLastD 0 -
              (getRecentPrices hist t date 20).headD 0) /
              (getRecentPrices hist t date 20).headD 0 < -0.05 ∧
            hasKey portfolio.assets t = true)]
          rfl
        · rintro ⟨-, hkf⟩
          rw [hk] at hkf
          exact Bool.noConfusion hkf
    · intro sig hsig hticker
      rw [List.mem_filterMap] at hsig
      obtain ⟨a, hmem, hfa⟩ := hsig
      by_cases hl : 20 ≤ (getRecentPrices hist a date 20).length
      · have hat : a = t := by
          rw [if_pos hl] at hfa
          by_cases hbuy : ((getRecentPrices hist a date 20).getLastD 0 -
                (getRecentPrices hist a date 20).headD 0) /
                (getRecentPrices hist a date 20).headD 0 > 0.05 ∧
              hasKey portfolio.assets a = false
          · rw [if_pos hbuy] at hfa
            have hsig := Option.some.inj hfa
            rw [← hticker, ← hsig]
          · rw [if_neg hbuy] at hfa
            by_cases hsell : ((getRecentPrices hist a date 20).getLastD 0 -
                  (getRecentPrices hist a date 20).headD 0) /
                  (getRecentPrices hist a date 20).headD 0 < -0.05 ∧
                hasKey portfolio.assets a = true
            · rw [if_pos hsell] at hfa
              have hsig := Option.some.inj hfa
              rw [← hticker, ← hsig]
            · rw [if_neg hsell] at hfa
              cases hfa
        subst hat
        exact ⟨hday, (hlen20 a).mp hl⟩
      · rw [if_neg hl] at hfa
        cases hfa
  · rw [if_neg hday]
    simp [hday]

/-- A 21-bar rising price series for ticker `A`: bar `i` has date `i` and
close `100 + i`. -/
def hist9 : List (Ticker × List Bar) :=
  [("A", [⟨0, 100⟩, ⟨1, 101⟩, ⟨2, 102⟩, ⟨3, 103⟩, ⟨4, 104⟩, ⟨5, 105⟩, ⟨6, 106⟩,
    ⟨7, 107⟩, ⟨8, 108⟩, ⟨9, 109⟩, ⟨10, 110⟩, ⟨11, 111⟩, ⟨12, 112⟩, ⟨13, 113⟩,
    ⟨14, 114⟩, ⟨15, 115⟩, ⟨16, 116⟩, ⟨17, 117⟩, ⟨18, 118⟩, ⟨19, 119⟩, ⟨20, 120⟩])]

/-- A momentum configuration over `hist9`. -/
def cfg9 : SimulationConfig :=
  { tickers := ["A"], startDate := 0, endDate := 20, initialCapital := 1000
    strategy := "momentum"
    riskControls := { maxDrawdown := 20, volatilityCap := 25, stopLoss := 15 } }

/-- Witness for C9: on day 20 of the rising series the 20-close trailing
window is `101..120`, the momentum is `19/101 > 0.05` and no position is
open, so the BUY signal is emitted. -/
theorem C9_witness :
    momentumBuySignal hist9 "A" 20 ∈
      generateSignals cfg9 hist9 (initState cfg9).portfolio 20 20 [] := by
  refine (C9_theorem cfg9 hist9 (initState cfg9).portfolio 20 20 [] "A" rfl).1.mpr
    ⟨by decide, by decide, by decide, ?_, by decide⟩
  norm_num [momentumOf, getRecentPrices, lookupBars, hist9]

/-! ## C10 -/

/-- Claim C10, confirmed: a BUY signal for a ticker with no close price
on the current day changes nothing — the price lookup is `undefined`, the
computed quantity is `NaN`, the `quantity > 0` guard fails, so no trade
is appended and cash and positions are untouched (the state is returned
unchanged). -/
theorem C10_theorem (clock : Nat → Nat) (st : SimState) (signal : Signal) (date : Date)
    (prices : List (Ticker × ℚ)) (ha : signal.action = .BUY)
    (h : lookupPrice prices signal.ticker = none) :
    executeTrade clock st signal date (lookupPrice prices signal.ticker) = st := by
  rw [h]
  rcases signal with ⟨t, a, w, r⟩
  cases a
  case SELL => cases ha
  case BUY => rfl

/-- Witness for C10: a BUY of ticker `B` on a day whose price map lists
only `A` leaves the state untouched. -/
theorem C10_witness :
    executeTrade (fun k => k) exState { ticker := "B", action := .BUY, weight := some 0.2, reason := "momentum" } 3
      (lookupPrice [("A", 50)] { ticker := "B", action := .BUY, weight := some 0.2, reason := "momentum" : Signal }.ticker) = exState :=
  C10_theorem (fun k => k) exState _ 3 [("A", 50)] rfl rfl

end PortfolioSim
